import Mathlib

/-!
Verification of the Synapse matching engine (the matching algorithm module)
against its natural-language specification.  The definitions below are a
shallow embedding of the TypeScript source: JavaScript numbers are modelled
as exact rationals, JavaScript objects as insertion-ordered key/value lists,
and the database tables read by the calculators as explicit lists of rows.
-/

namespace Synapse

/-! ## Enumerations mirroring the MySQL enum columns of the schema -/

inductive Proficiency
  | beginner
  | intermediate
  | advanced
  | expert
  deriving DecidableEq

/-- The proficiencyLevels lookup table inside calculateSkillScore. -/
def Proficiency.level : Proficiency → ℚ
  | .beginner => 1
  | .intermediate => 2
  | .advanced => 3
  | .expert => 4

inductive Stage
  | idea
  | prototype
  | running
  | scaling
  deriving DecidableEq

/-- The stageHierarchy lookup table inside calculateStageScore. -/
def Stage.level : Stage → ℚ
  | .idea => 1
  | .prototype => 2
  | .running => 3
  | .scaling => 4

/-- The stage column value as a string, used to build the stage_<stage> tag. -/
def Stage.name : Stage → String
  | .idea => "idea"
  | .prototype => "prototype"
  | .running => "running"
  | .scaling => "scaling"

inductive UserType
  | founder
  | freelancer
  | investor
  | collaborator
  deriving DecidableEq

inductive ProjectStatus
  | draft
  | active
  | paused
  | completed
  | archived
  deriving DecidableEq

/-! ## Rows read by the engine -/

structure User where
  id : ℕ
  userType : UserType
  level : ℕ
  projectsCreated : ℕ
  collaborations : ℕ
  investments : ℕ
  earnings : ℚ
  interests : List String
  deriving DecidableEq

structure Project where
  id : ℕ
  ownerId : ℕ
  stage : Stage
  status : ProjectStatus
  seekingInvestment : Bool
  seekingTeam : Bool
  openForCollaboration : Bool
  totalInvestmentNeeded : Option ℚ
  tags : List String
  deriving DecidableEq

structure UserSkillRow where
  userId : ℕ
  skillId : ℕ
  proficiency : Proficiency
  yearsOfExperience : ℕ
  deriving DecidableEq

structure TeamRequirementRow where
  projectId : ℕ
  skillId : ℕ
  minProficiency : Proficiency
  minYearsExperience : ℕ
  filled : ℕ
  count : ℕ
  deriving DecidableEq

structure DB where
  users : List User
  projects : List Project
  userSkills : List UserSkillRow
  projectTeamRequirements : List TeamRequirementRow
  deriving DecidableEq

/-! ## JavaScript objects with numeric values -/

/-- A JavaScript object with number values: an insertion-ordered key/value list. -/
abbrev Obj := List (String × ℚ)

/-- Property read o[k]. -/
def Obj.get (o : Obj) (k : String) : Option ℚ :=
  (o.find? (fun p => p.1 == k)).map (fun p => p.2)

/-- Property assignment o[k] = v: updates the value in place when the key is
already present, otherwise appends the new key at the end. -/
def Obj.set (o : Obj) (k : String) (v : ℚ) : Obj :=
  if o.any (fun p => p.1 == k) then o.map (fun p => if p.1 == k then (k, v) else p)
  else o ++ [(k, v)]

/-- JavaScript object spread \x7b...a, ...b\x7d: keys of b overwrite values of a. -/
def Obj.merge (a b : Obj) : Obj :=
  b.foldl (fun acc p => acc.set p.1 p.2) a

/-- Result of one calculator: a score and a detail object. -/
structure ScoreResult where
  score : ℚ
  details : Obj
  deriving DecidableEq

/-! ## Skill score calculator (40% weight) -/

/-- Proficiency matching component (0-60 points band) of calculateSkillScore. -/
def proficiencyComponent (userProf reqProf : ℚ) : ℚ :=
  if reqProf ≤ userProf then 30 + (userProf - reqProf) * 10
  else max 0 (20 - (reqProf - userProf) * 10)

/-- Experience matching component (0-40 points band) of calculateSkillScore. -/
def experienceComponent (years minYears : ℕ) : ℚ :=
  if minYears ≤ years then 30 + min 10 (((years : ℚ) - (minYears : ℚ)) / 2)
  else max 0 (15 - ((minYears : ℚ) - (years : ℚ)) * 5)

/-- The combined per-requirement skill score of the loop body. -/
def requirementScore (sk : UserSkillRow) (req : TeamRequirementRow) : ℚ :=
  proficiencyComponent sk.proficiency.level req.minProficiency.level
    + experienceComponent sk.yearsOfExperience req.minYearsExperience

/-- The for-loop of calculateSkillScore, accumulating
(totalScore, matchedSkills, details). -/
def scoreRequirements (skills : List UserSkillRow) (acc : ℚ × ℕ × Obj) :
    List TeamRequirementRow → ℚ × ℕ × Obj
  | [] => acc
  | req :: reqs =>
    match skills.find? (fun s => s.skillId == req.skillId) with
    | some sk =>
      scoreRequirements skills
        (acc.1 + requirementScore sk req, acc.2.1 + 1,
          acc.2.2.set (String.append "skill_" (toString req.skillId)) (requirementScore sk req))
        reqs
    | none => scoreRequirements skills acc reqs

def calculateSkillScore (user : User) (project : Project) (db : DB) : ScoreResult :=
  let userSkillsData := db.userSkills.filter (fun s => s.userId == user.id)
  if userSkillsData.length = 0 then ⟨0, []⟩
  else
    let teamReqs := db.projectTeamRequirements.filter (fun r => r.projectId == project.id)
    if teamReqs.length = 0 then ⟨50, [("noRequirements", 50)]⟩
    else
      let acc := scoreRequirements userSkillsData (0, 0, []) teamReqs
      let avgScore : ℚ := if 0 < acc.2.1 then acc.1 / (acc.2.1 : ℚ) else 0
      let matchPercentage : ℚ := ((acc.2.1 : ℚ) / (teamReqs.length : ℚ)) * 100
      let coverageBonus : ℚ :=
        if 70 < matchPercentage then 10 else if 40 < matchPercentage then 5 else 0
      let finalScore := min 100 (avgScore + coverageBonus)
      ⟨finalScore, (acc.2.2.set "coverage" matchPercentage).set "final" finalScore⟩

/-! ## Investment score calculator (25% weight) -/

def calculateInvestmentScore (user : User) (project : Project) : ScoreResult :=
  if user.userType ≠ UserType.investor then ⟨0, [("notInvestor", 0)]⟩
  else if ¬ project.seekingInvestment then ⟨0, [("notSeeking", 0)]⟩
  else
    let s1d1 : ℚ × Obj :=
      match project.totalInvestmentNeeded with
      | some investmentNeeded =>
        let userInvestmentCapacity := user.earnings * 2
        if investmentNeeded ≤ userInvestmentCapacity then
          (50 + 30, Obj.set [] "fundingCapacity" 30)
        else if investmentNeeded * 0.5 ≤ userInvestmentCapacity then
          (50 + 20, Obj.set [] "fundingCapacity" 20)
        else if investmentNeeded * 0.2 ≤ userInvestmentCapacity then
          (50 + 10, Obj.set [] "fundingCapacity" 10)
        else (50, [])
      | none => (50, [])
    let stagePreference : ℚ :=
      if user.interests.contains (String.append "stage_" project.stage.name) then 10 else 0
    let s2 := s1d1.1 + stagePreference
    let d2 := s1d1.2.set "stagePreference" stagePreference
    let s3d3 : ℚ × Obj :=
      if 0 < user.investments then
        (s2 + min 10 (user.investments : ℚ), d2.set "experience" (min 10 (user.investments : ℚ)))
      else (s2, d2)
    ⟨min 100 s3d3.1, s3d3.2.set "final" (min 100 s3d3.1)⟩

/-! ## Stage score calculator (15% weight) -/

def calculateStageScore (user : User) (project : Project) : ScoreResult :=
  let userLevel : ℚ := ((⌈(user.level : ℚ) / 2⌉ : ℤ) : ℚ)
  let projectStageLevel : ℚ := project.stage.level
  let stageMatch : ℚ :=
    if userLevel = projectStageLevel then 40
    else if |userLevel - projectStageLevel| = 1 then 25
    else if projectStageLevel < userLevel then 15
    else max 5 (20 - |userLevel - projectStageLevel| * 5)
  let s1 : ℚ := 50 + stageMatch
  let d1 : Obj := Obj.set [] "stageMatch" stageMatch
  let s2d2 : ℚ × Obj :=
    if 0 < user.collaborations then
      (s1 + min 10 (user.collaborations : ℚ),
        d1.set "collaborationBonus" (min 10 (user.collaborations : ℚ)))
    else (s1, d1)
  ⟨min 100 s2d2.1, s2d2.2.set "final" (min 100 s2d2.1)⟩

/-! ## Interest score calculator (15% weight) -/

def calculateInterestScore (user : User) (project : Project) : ScoreResult :=
  let projectTags := project.tags
  let userInterestTags := user.interests
  let s1d1 : ℚ × Obj :=
    if 0 < projectTags.length ∧ 0 < userInterestTags.length then
      let matchedTags := (projectTags.filter (fun tag => userInterestTags.contains tag)).length
      let tagScore : ℚ :=
        ((matchedTags : ℚ) / ((max projectTags.length userInterestTags.length : ℕ) : ℚ)) * 50
      (30 + tagScore, Obj.set [] "tagMatching" tagScore)
    else (30, [])
  let bonus : ℚ :=
    match user.userType with
    | .founder => if project.openForCollaboration then 15 else 0
    | .freelancer => if project.seekingTeam then 15 else 0
    | .investor => if project.seekingInvestment then 15 else 0
    | .collaborator => if project.openForCollaboration then 15 else 0
  let s2 := s1d1.1 + bonus
  let d2 := s1d1.2.set "userTypeBonus" bonus
  ⟨min 100 s2, d2.set "final" (min 100 s2)⟩

/-! ## Engagement score calculator (5% weight) -/

def calculateEngagementScore (user : User) : ScoreResult :=
  let totalActivity : ℚ :=
    (user.projectsCreated : ℚ) + (user.collaborations : ℚ) + (user.investments : ℚ)
  let activityBonus := min 40 (totalActivity * 5)
  let levelBonus := min 10 (((user.level : ℚ) - 1) * 2)
  let score := 50 + activityBonus + levelBonus
  ⟨min 100 score,
    ((Obj.set [] "activity" activityBonus).set "level" levelBonus).set "final" (min 100 score)⟩

/-! ## Match aggregator -/

inductive MatchType
  | skill_based
  | investment_based
  | stage_based
  | interest_based
  deriving DecidableEq

structure MatchScore where
  userId : ℕ
  projectId : ℕ
  totalScore : ℤ
  skillScore : ℤ
  investmentScore : ℤ
  stageScore : ℤ
  interestScore : ℤ
  engagementScore : ℤ
  scoreDetails : Obj
  matchType : MatchType
  recommendation : String
  deriving DecidableEq

/-- JavaScript Math.round: round half toward positive infinity. -/
def jsRound (q : ℚ) : ℤ := ⌊q + 1 / 2⌋

/-- The unrounded weighted total computed inside calculateMatchScore. -/
def rawTotalScore (user : User) (project : Project) (db : DB) : ℚ :=
  (calculateSkillScore user project db).score * 0.4
    + (calculateInvestmentScore user project).score * 0.25
    + (calculateStageScore user project).score * 0.15
    + (calculateInterestScore user project).score * 0.15
    + (calculateEngagementScore user).score * 0.05

/-- Role-driven match type selection of calculateMatchScore. -/
def matchTypeFor : UserType → MatchType
  | .freelancer => .skill_based
  | .investor => .investment_based
  | .founder => .stage_based
  | .collaborator => .stage_based

/-- The recommendation if-chain of calculateMatchScore, applied to the
unrounded total. -/
def recommendationFor (totalScore : ℚ) : String :=
  if 80 ≤ totalScore then "Excellent match - highly recommended"
  else if 60 ≤ totalScore then "Good match - consider this opportunity"
  else if 40 ≤ totalScore then "Fair match - could be worth exploring"
  else "Limited match - may require additional consideration"

def calculateMatchScore (user : User) (project : Project) (db : DB) : MatchScore :=
  let skillScore := calculateSkillScore user project db
  let investmentScore := calculateInvestmentScore user project
  let stageScore := calculateStageScore user project
  let interestScore := calculateInterestScore user project
  let engagementScore := calculateEngagementScore user
  let totalScore := rawTotalScore user project db
  let merged :=
    (((skillScore.details.merge investmentScore.details).merge stageScore.details).merge
        interestScore.details).merge engagementScore.details
  let scoreDetails :=
    (((((merged.set "skillScore" skillScore.score).set
        "investmentScore" investmentScore.score).set
        "stageScore" stageScore.score).set
        "interestScore" interestScore.score).set
        "engagementScore" engagementScore.score).set
        "totalScore" ((jsRound totalScore : ℤ) : ℚ)
  ⟨user.id, project.id, jsRound totalScore, jsRound skillScore.score,
    jsRound investmentScore.score, jsRound stageScore.score, jsRound interestScore.score,
    jsRound engagementScore.score, scoreDetails, matchTypeFor user.userType,
    recommendationFor totalScore⟩

/-! ## Batch matching (findTopMatches) -/

/-- The candidate query of findTopMatches: active seeking-team projects,
limited to 100 rows. -/
def activeProjects (db : DB) : List Project :=
  (db.projects.filter (fun p => p.status == ProjectStatus.active && p.seekingTeam)).take 100

/-- The scoring loop of findTopMatches: skips projects owned by the user and
keeps matches reaching the minimum score, in discovery order. -/
def scoreLoop (user : User) (db : DB) (userId : ℕ) (minScore : ℤ) :
    List Project → List MatchScore
  | [] => []
  | p :: ps =>
    if p.ownerId == userId then scoreLoop user db userId minScore ps
    else
      let m := calculateMatchScore user p db
      if minScore ≤ m.totalScore then m :: scoreLoop user db userId minScore ps
      else scoreLoop user db userId minScore ps

/-- Stable descending insertion of one match (equal scores keep the earlier
element first). -/
def insertDesc (m : MatchScore) : List MatchScore → List MatchScore
  | [] => [m]
  | x :: xs => if m.totalScore < x.totalScore then x :: insertDesc m xs else m :: x :: xs

/-- Stable sort by total score descending; JavaScript Array.prototype.sort
with comparator (a, b) => b.totalScore - a.totalScore is a stable sort with
exactly this ordering. -/
def sortByScoreDesc : List MatchScore → List MatchScore
  | [] => []
  | x :: xs => insertDesc x (sortByScoreDesc xs)

def findTopMatches (db : DB) (userId : ℕ) (limit : ℕ) (minScore : ℤ) : List MatchScore :=
  match db.users.find? (fun u => u.id == userId) with
  | none => []
  | some user =>
    (sortByScoreDesc (scoreLoop user db userId minScore (activeProjects db))).take limit

end Synapse

namespace Synapse

/-! ## Small evaluation helpers -/

lemma ceil_half_of_one : (⌈(1 : ℚ) / 2⌉ : ℤ) = 1 := by
  rw [Int.ceil_eq_iff]
  norm_num

lemma ceil_half_of_two : (⌈(2 : ℚ) / 2⌉ : ℤ) = 1 := by
  rw [Int.ceil_eq_iff]
  norm_num

lemma skillKey_one : String.append "skill_" (toString 1) = "skill_1" := rfl

lemma skillKey_seven : String.append "skill_" (toString 7) = "skill_7" := rfl

lemma founder_ne_investor : UserType.founder ≠ UserType.investor := by
  intro h
  cases h

lemma freelancer_ne_investor : UserType.freelancer ≠ UserType.investor := by
  intro h
  cases h

/-! ## Projection equations of the aggregator output -/

lemma matchScore_totalScore_eq (u : User) (p : Project) (db : DB) :
    (calculateMatchScore u p db).totalScore = jsRound (rawTotalScore u p db) := rfl

lemma matchScore_skillScore_eq (u : User) (p : Project) (db : DB) :
    (calculateMatchScore u p db).skillScore = jsRound (calculateSkillScore u p db).score := rfl

lemma matchScore_investmentScore_eq (u : User) (p : Project) (db : DB) :
    (calculateMatchScore u p db).investmentScore = jsRound (calculateInvestmentScore u p).score :=
  rfl

lemma matchScore_stageScore_eq (u : User) (p : Project) (db : DB) :
    (calculateMatchScore u p db).stageScore = jsRound (calculateStageScore u p).score := rfl

lemma matchScore_interestScore_eq (u : User) (p : Project) (db : DB) :
    (calculateMatchScore u p db).interestScore = jsRound (calculateInterestScore u p).score := rfl

lemma matchScore_engagementScore_eq (u : User) (p : Project) (db : DB) :
    (calculateMatchScore u p db).engagementScore = jsRound (calculateEngagementScore u).score :=
  rfl

lemma matchScore_recommendation_eq (u : User) (p : Project) (db : DB) :
    (calculateMatchScore u p db).recommendation = recommendationFor (rawTotalScore u p db) := rfl

lemma matchScore_projectId_eq (u : User) (p : Project) (db : DB) :
    (calculateMatchScore u p db).projectId = p.id := rfl

/-! ## Bounds of the skill calculator -/

lemma proficiencyComponent_nonneg (u r : ℚ) : 0 ≤ proficiencyComponent u r := by
  unfold proficiencyComponent
  split_ifs with h
  · have : 0 ≤ (u - r) * 10 := mul_nonneg (by linarith) (by norm_num)
    linarith
  · exact le_max_left 0 _

lemma proficiencyComponent_ge_30 (u r : ℚ) (h : r ≤ u) : 30 ≤ proficiencyComponent u r := by
  unfold proficiencyComponent
  rw [if_pos h]
  have : 0 ≤ (u - r) * 10 := mul_nonneg (by linarith) (by norm_num)
  linarith

lemma experienceComponent_nonneg (y m : ℕ) : 0 ≤ experienceComponent y m := by
  unfold experienceComponent
  split_ifs with h
  · have hc : (m : ℚ) ≤ (y : ℚ) := by exact_mod_cast h
    have : (0 : ℚ) ≤ min 10 (((y : ℚ) - (m : ℚ)) / 2) :=
      le_min (by norm_num) (by linarith)
    linarith
  · exact le_max_left 0 _

lemma experienceComponent_ge_30 (y m : ℕ) (h : m ≤ y) : 30 ≤ experienceComponent y m := by
  unfold experienceComponent
  rw [if_pos h]
  have hc : (m : ℚ) ≤ (y : ℚ) := by exact_mod_cast h
  have : (0 : ℚ) ≤ min 10 (((y : ℚ) - (m : ℚ)) / 2) :=
    le_min (by norm_num) (by linarith)
  linarith

lemma requirementScore_nonneg (sk : UserSkillRow) (req : TeamRequirementRow) :
    0 ≤ requirementScore sk req :=
  add_nonneg (proficiencyComponent_nonneg _ _) (experienceComponent_nonneg _ _)

lemma scoreRequirements_fst_nonneg (skills : List UserSkillRow)
    (reqs : List TeamRequirementRow) (acc : ℚ × ℕ × Obj) (h : 0 ≤ acc.1) :
    0 ≤ (scoreRequirements skills acc reqs).1 := by
  induction reqs generalizing acc with
  | nil => simpa [scoreRequirements] using h
  | cons req rs ih =>
    rw [scoreRequirements]
    cases hf : skills.find? (fun s => s.skillId == req.skillId) with
    | none => exact ih _ h
    | some sk => exact ih _ (add_nonneg h (requirementScore_nonneg sk req))

lemma calculateSkillScore_nonneg (u : User) (p : Project) (db : DB) :
    0 ≤ (calculateSkillScore u p db).score := by
  simp only [calculateSkillScore]
  split
  · norm_num
  · split
    · norm_num
    · refine le_min (by norm_num) (add_nonneg ?_ ?_)
      · split
        · exact div_nonneg (scoreRequirements_fst_nonneg _ _ _ le_rfl) (Nat.cast_nonneg _)
        · norm_num
      · split
        · norm_num
        · split <;> norm_num

lemma calculateSkillScore_le_100 (u : User) (p : Project) (db : DB) :
    (calculateSkillScore u p db).score ≤ 100 := by
  simp only [calculateSkillScore]
  split
  · norm_num
  · split
    · norm_num
    · exact min_le_left _ _

/-! ## Bounds of the investment calculator -/

lemma calculateInvestmentScore_nonneg (u : User) (p : Project) :
    0 ≤ (calculateInvestmentScore u p).score := by
  have hexp : (0 : ℚ) ≤ min 10 (u.investments : ℚ) :=
    le_min (by norm_num) (Nat.cast_nonneg _)
  rcases hopt : p.totalInvestmentNeeded with _ | q <;>
    simp only [calculateInvestmentScore, hopt] <;>
    split_ifs <;>
    dsimp only <;>
    first
      | (norm_num; done)
      | (refine le_min (by norm_num) ?_; dsimp only; linarith)

lemma calculateInvestmentScore_le_100 (u : User) (p : Project) :
    (calculateInvestmentScore u p).score ≤ 100 := by
  simp only [calculateInvestmentScore]
  split
  · norm_num
  · split
    · norm_num
    · exact min_le_left _ _

/-! ## Bounds of the stage calculator -/

lemma calculateStageScore_ge_55 (u : User) (p : Project) :
    55 ≤ (calculateStageScore u p).score := by
  simp only [calculateStageScore]
  have hcol : (0 : ℚ) ≤ min 10 (u.collaborations : ℚ) :=
    le_min (by norm_num) (Nat.cast_nonneg _)
  have hmax : (5 : ℚ) ≤ max 5 (20 - |((⌈(u.level : ℚ) / 2⌉ : ℤ) : ℚ) - p.stage.level| * 5) :=
    le_max_left _ _
  refine le_min (by norm_num) ?_
  split_ifs <;> dsimp only <;> linarith

lemma calculateStageScore_le_100 (u : User) (p : Project) :
    (calculateStageScore u p).score ≤ 100 := by
  simp only [calculateStageScore]
  exact min_le_left _ _

/-! ## Bounds of the interest calculator -/

lemma calculateInterestScore_nonneg (u : User) (p : Project) :
    0 ≤ (calculateInterestScore u p).score := by
  have htag : (0 : ℚ) ≤
      ((p.tags.filter (fun tag => u.interests.contains tag)).length : ℚ)
        / ((max p.tags.length u.interests.length : ℕ) : ℚ) * 50 :=
    mul_nonneg (div_nonneg (Nat.cast_nonneg _) (Nat.cast_nonneg _)) (by norm_num)
  cases hu : u.userType <;>
    simp only [calculateInterestScore, hu] <;>
    refine le_min (by norm_num) ?_ <;>
    split_ifs <;>
    dsimp only <;>
    linarith [htag]

lemma calculateInterestScore_le_100 (u : User) (p : Project) :
    (calculateInterestScore u p).score ≤ 100 := by
  simp only [calculateInterestScore]
  exact min_le_left _ _

/-! ## Bounds of the engagement calculator -/

lemma calculateEngagementScore_nonneg (u : User) :
    0 ≤ (calculateEngagementScore u).score := by
  simp only [calculateEngagementScore]
  have hact : (0 : ℚ) ≤ min 40
      (((u.projectsCreated : ℚ) + (u.collaborations : ℚ) + (u.investments : ℚ)) * 5) := by
    refine le_min (by norm_num) (mul_nonneg ?_ (by norm_num))
    have h1 : (0 : ℚ) ≤ (u.projectsCreated : ℚ) := Nat.cast_nonneg _
    have h2 : (0 : ℚ) ≤ (u.collaborations : ℚ) := Nat.cast_nonneg _
    have h3 : (0 : ℚ) ≤ (u.investments : ℚ) := Nat.cast_nonneg _
    linarith
  have hlvl : (-2 : ℚ) ≤ min 10 (((u.level : ℚ) - 1) * 2) := by
    refine le_min (by norm_num) ?_
    have : (0 : ℚ) ≤ (u.level : ℚ) := Nat.cast_nonneg _
    linarith
  refine le_min (by norm_num) (by linarith)

lemma calculateEngagementScore_le_100 (u : User) :
    (calculateEngagementScore u).score ≤ 100 := by
  simp only [calculateEngagementScore]
  exact min_le_left _ _

/-! ## Bounds of the weighted total and of Math.round -/

lemma rawTotalScore_nonneg (u : User) (p : Project) (db : DB) :
    0 ≤ rawTotalScore u p db := by
  unfold rawTotalScore
  have h1 := calculateSkillScore_nonneg u p db
  have h2 := calculateInvestmentScore_nonneg u p
  have h3 := calculateStageScore_ge_55 u p
  have h4 := calculateInterestScore_nonneg u p
  have h5 := calculateEngagementScore_nonneg u
  nlinarith

lemma rawTotalScore_le_100 (u : User) (p : Project) (db : DB) :
    rawTotalScore u p db ≤ 100 := by
  unfold rawTotalScore
  have h1 := calculateSkillScore_le_100 u p db
  have h2 := calculateInvestmentScore_le_100 u p
  have h3 := calculateStageScore_le_100 u p
  have h4 := calculateInterestScore_le_100 u p
  have h5 := calculateEngagementScore_le_100 u
  nlinarith

lemma jsRound_nonneg (q : ℚ) (h : 0 ≤ q) : 0 ≤ jsRound q := by
  unfold jsRound
  exact Int.floor_nonneg.mpr (by linarith)

lemma jsRound_le_100 (q : ℚ) (h : q ≤ 100) : jsRound q ≤ 100 := by
  unfold jsRound
  have h1 : ((⌊q + 1 / 2⌋ : ℤ) : ℚ) ≤ q + 1 / 2 := Int.floor_le _
  have h2 : ((⌊q + 1 / 2⌋ : ℤ) : ℚ) < ((101 : ℤ) : ℚ) := by push_cast; linarith
  have h3 : ⌊q + 1 / 2⌋ < 101 := by exact_mod_cast h2
  omega

lemma jsRound_of_bounds (q : ℚ) (h0 : 0 ≤ q) (h1 : q ≤ 100) :
    0 ≤ jsRound q ∧ jsRound q ≤ 100 :=
  ⟨jsRound_nonneg q h0, jsRound_le_100 q h1⟩


/-! ## Ordering, stability and membership lemmas for the sorter -/

lemma mem_insertDesc {a m : MatchScore} {l : List MatchScore} :
    a ∈ insertDesc m l ↔ a = m ∨ a ∈ l := by
  induction l with
  | nil => simp [insertDesc]
  | cons x xs ih =>
    rw [insertDesc]
    split_ifs with hlt
    · simp only [List.mem_cons, ih]
      try tauto
    · simp only [List.mem_cons]
      try tauto

lemma insertDesc_sorted (m : MatchScore) (l : List MatchScore)
    (h : l.Pairwise (fun a b => b.totalScore ≤ a.totalScore)) :
    (insertDesc m l).Pairwise (fun a b => b.totalScore ≤ a.totalScore) := by
  induction l with
  | nil => simp [insertDesc]
  | cons x xs ih =>
    rw [List.pairwise_cons] at h
    rw [insertDesc]
    split_ifs with hlt
    · rw [List.pairwise_cons]
      refine ⟨?_, ih h.2⟩
      intro y hy
      rcases mem_insertDesc.mp hy with rfl | hy
      · exact le_of_lt hlt
      · exact h.1 y hy
    · rw [List.pairwise_cons]
      refine ⟨?_, List.pairwise_cons.mpr h⟩
      intro y hy
      rcases List.mem_cons.mp hy with rfl | hy
      · exact not_lt.mp hlt
      · exact le_trans (h.1 y hy) (not_lt.mp hlt)

lemma sortByScoreDesc_sorted (l : List MatchScore) :
    (sortByScoreDesc l).Pairwise (fun a b => b.totalScore ≤ a.totalScore) := by
  induction l with
  | nil => simp [sortByScoreDesc]
  | cons x xs ih => exact insertDesc_sorted x (sortByScoreDesc xs) ih

lemma length_insertDesc (m : MatchScore) (l : List MatchScore) :
    (insertDesc m l).length = l.length + 1 := by
  induction l with
  | nil => rfl
  | cons x xs ih =>
    rw [insertDesc]
    split_ifs with hlt
    · simp [ih]
    · simp

lemma length_sortByScoreDesc (l : List MatchScore) :
    (sortByScoreDesc l).length = l.length := by
  induction l with
  | nil => rfl
  | cons x xs ih =>
    rw [sortByScoreDesc, length_insertDesc, ih, List.length_cons]

lemma mem_sortByScoreDesc {a : MatchScore} {l : List MatchScore} :
    a ∈ sortByScoreDesc l ↔ a ∈ l := by
  induction l with
  | nil => simp [sortByScoreDesc]
  | cons x xs ih =>
    rw [sortByScoreDesc, mem_insertDesc, List.mem_cons, ih]
    try tauto

lemma filter_insertDesc_of_eq (m : MatchScore) (l : List MatchScore) (s : ℤ)
    (h : m.totalScore = s) :
    (insertDesc m l).filter (fun x => x.totalScore == s)
      = m :: l.filter (fun x => x.totalScore == s) := by
  induction l with
  | nil => simp [insertDesc, List.filter_cons, h]
  | cons x xs ih =>
    rw [insertDesc]
    split_ifs with hlt
    · have hx : (x.totalScore == s) = false := by
        rw [beq_eq_false_iff_ne]
        intro hxs
        rw [h] at hlt
        rw [hxs] at hlt
        exact lt_irrefl s hlt
      rw [List.filter_cons, List.filter_cons, hx, ih]
      simp [hx]
    · rw [List.filter_cons]
      have hm : (m.totalScore == s) = true := beq_iff_eq.mpr h
      simp [hm]

lemma filter_insertDesc_of_ne (m : MatchScore) (l : List MatchScore) (s : ℤ)
    (h : m.totalScore ≠ s) :
    (insertDesc m l).filter (fun x => x.totalScore == s)
      = l.filter (fun x => x.totalScore == s) := by
  have hm : (m.totalScore == s) = false := beq_eq_false_iff_ne.mpr h
  induction l with
  | nil => simp [insertDesc, List.filter_cons, hm]
  | cons x xs ih =>
    rw [insertDesc]
    split_ifs with hlt
    · rw [List.filter_cons, List.filter_cons]
      cases hx : (x.totalScore == s) <;> simp [hx, ih]
    · simp [List.filter_cons, hm]

lemma filter_sortByScoreDesc (l : List MatchScore) (s : ℤ) :
    (sortByScoreDesc l).filter (fun x => x.totalScore == s)
      = l.filter (fun x => x.totalScore == s) := by
  induction l with
  | nil => rfl
  | cons x xs ih =>
    by_cases hx : x.totalScore = s
    · rw [sortByScoreDesc, filter_insertDesc_of_eq _ _ _ hx, ih, List.filter_cons]
      simp [beq_iff_eq.mpr hx]
    · rw [sortByScoreDesc, filter_insertDesc_of_ne _ _ _ hx, ih, List.filter_cons]
      simp [beq_eq_false_iff_ne.mpr hx]

/-! ## Lemmas about the scoring loop of findTopMatches -/

lemma mem_scoreLoop {user : User} {db : DB} {userId : ℕ} {minScore : ℤ}
    {ps : List Project} {m : MatchScore} (h : m ∈ scoreLoop user db userId minScore ps) :
    ∃ p ∈ ps, p.ownerId ≠ userId ∧ m = calculateMatchScore user p db := by
  induction ps with
  | nil => simp [scoreLoop] at h
  | cons p rest ih =>
    simp only [scoreLoop] at h
    split_ifs at h with hown hmin
    · rcases ih h with ⟨q, hq, hqo, hqe⟩
      exact ⟨q, List.mem_cons_of_mem _ hq, hqo, hqe⟩
    · rcases List.mem_cons.mp h with rfl | hrest
      · refine ⟨p, List.mem_cons_self _ _, ?_, rfl⟩
        intro he
        rw [he] at hown
        simp at hown
      · rcases ih hrest with ⟨q, hq, hqo, hqe⟩
        exact ⟨q, List.mem_cons_of_mem _ hq, hqo, hqe⟩
    · rcases ih h with ⟨q, hq, hqo, hqe⟩
      exact ⟨q, List.mem_cons_of_mem _ hq, hqo, hqe⟩

lemma scoreLoop_length_le (user : User) (db : DB) (userId : ℕ) (minScore : ℤ)
    (ps : List Project) :
    (scoreLoop user db userId minScore ps).length ≤ ps.length := by
  induction ps with
  | nil => simp [scoreLoop]
  | cons p rest ih =>
    simp only [scoreLoop]
    split_ifs with hown hmin
    · exact le_trans ih (by simp)
    · simpa using ih
    · exact le_trans ih (by simp)

lemma activeProjects_length_le (db : DB) : (activeProjects db).length ≤ 100 := by
  unfold activeProjects
  rw [List.length_take]
  exact min_le_left _ _

/-! ## Concrete inputs used to settle the claims -/

def cexUser1 : User := ⟨1, .founder, 2, 0, 4, 0, 0, []⟩

def cexProject1 : Project := ⟨1, 2, .idea, .active, false, true, false, none, []⟩

def cexDB1 : DB :=
  ⟨[cexUser1], [cexProject1], [⟨1, 1, .beginner, 3⟩], [⟨1, 1, .intermediate, 2, 0, 1⟩]⟩

def scenarioUser : User := ⟨1, .freelancer, 1, 0, 0, 0, 0, []⟩

def scenarioProject : Project := ⟨1, 2, .idea, .active, false, true, false, none, []⟩

def scenarioDB : DB :=
  ⟨[scenarioUser], [scenarioProject], [⟨1, 7, .advanced, 5⟩], [⟨1, 7, .intermediate, 2, 0, 1⟩]⟩

def noSkillUser : User := ⟨3, .founder, 1, 0, 0, 0, 0, []⟩

def noReqProject : Project := ⟨5, 4, .idea, .active, false, true, false, none, []⟩

def noSkillDB : DB := ⟨[noSkillUser], [noReqProject], [], []⟩

def witnessDB4 : DB := ⟨[scenarioUser], [scenarioProject], [⟨1, 7, .advanced, 5⟩], []⟩

/-! ## Claim theorems -/

/-- C1 counterexample: on cexUser1/cexProject1 the reported total score is 42,
while rounding the weighted sum of the five already-rounded sub-scores (51, 0,
94, 30, 72), clamped to [0, 100], yields 43.  The total is therefore not the
claimed function of the rounded sub-scores. -/
theorem totalScore_rounded_formula_cex :
    (calculateMatchScore cexUser1 cexProject1 cexDB1).totalScore = 42 ∧
    min 100 (max 0 (jsRound
      (((calculateMatchScore cexUser1 cexProject1 cexDB1).skillScore : ℚ) * 0.4
        + ((calculateMatchScore cexUser1 cexProject1 cexDB1).investmentScore : ℚ) * 0.25
        + ((calculateMatchScore cexUser1 cexProject1 cexDB1).stageScore : ℚ) * 0.15
        + ((calculateMatchScore cexUser1 cexProject1 cexDB1).interestScore : ℚ) * 0.15
        + ((calculateMatchScore cexUser1 cexProject1 cexDB1).engagementScore : ℚ) * 0.05)))
      = 43 ∧
    (42 : ℤ) ≠ 43 := by
  have hsk : (calculateMatchScore cexUser1 cexProject1 cexDB1).skillScore = 51 := by
    norm_num [calculateMatchScore, rawTotalScore, calculateSkillScore, scoreRequirements,
      requirementScore, proficiencyComponent, experienceComponent, Proficiency.level,
      List.filter, List.find?, Obj.set, jsRound, cexUser1, cexProject1, cexDB1]
  have hin : (calculateMatchScore cexUser1 cexProject1 cexDB1).investmentScore = 0 := by
    norm_num [calculateMatchScore, calculateInvestmentScore, jsRound,
      cexUser1, cexProject1, cexDB1, founder_ne_investor]
  have hst : (calculateMatchScore cexUser1 cexProject1 cexDB1).stageScore = 94 := by
    norm_num [calculateMatchScore, calculateStageScore, Stage.level, Obj.set, jsRound,
      cexUser1, cexProject1, cexDB1, ceil_half_of_two]
  have hit : (calculateMatchScore cexUser1 cexProject1 cexDB1).interestScore = 30 := by
    norm_num [calculateMatchScore, calculateInterestScore, Obj.set, jsRound,
      cexUser1, cexProject1, cexDB1]
  have hen : (calculateMatchScore cexUser1 cexProject1 cexDB1).engagementScore = 72 := by
    norm_num [calculateMatchScore, calculateEngagementScore, Obj.set, jsRound,
      cexUser1, cexProject1, cexDB1]
  refine ⟨?_, ?_, by norm_num⟩
  · norm_num [calculateMatchScore, rawTotalScore, calculateSkillScore, scoreRequirements,
      requirementScore, proficiencyComponent, experienceComponent, Proficiency.level,
      calculateStageScore, Stage.level, calculateEngagementScore, calculateInterestScore,
      calculateInvestmentScore, List.filter, List.find?, Obj.set, jsRound,
      cexUser1, cexProject1, cexDB1, ceil_half_of_two, founder_ne_investor]
  · rw [hsk, hin, hst, hit, hen]
    norm_num [jsRound]

/-- C1 (amended): the reported total equals
round(0.40 s + 0.25 i + 0.15 st + 0.15 in + 0.05 e) computed from the five
unrounded calculator scores, and this value always lies in [0, 100] (the code
applies no clamp and needs none). -/
theorem totalScore_from_unrounded_subscores (u : User) (p : Project) (db : DB) :
    (calculateMatchScore u p db).totalScore = jsRound (rawTotalScore u p db) ∧
    0 ≤ (calculateMatchScore u p db).totalScore ∧
    (calculateMatchScore u p db).totalScore ≤ 100 := by
  refine ⟨matchScore_totalScore_eq u p db, ?_, ?_⟩
  · rw [matchScore_totalScore_eq]
    exact jsRound_nonneg _ (rawTotalScore_nonneg u p db)
  · rw [matchScore_totalScore_eq]
    exact jsRound_le_100 _ (rawTotalScore_le_100 u p db)

/-- C2: for every user, project and database contents, all five sub-scores and
the total score of the resulting MatchScore lie in [0, 100]. -/
theorem matchScore_fields_in_range (u : User) (p : Project) (db : DB) :
    (0 ≤ (calculateMatchScore u p db).skillScore ∧
      (calculateMatchScore u p db).skillScore ≤ 100) ∧
    (0 ≤ (calculateMatchScore u p db).investmentScore ∧
      (calculateMatchScore u p db).investmentScore ≤ 100) ∧
    (0 ≤ (calculateMatchScore u p db).stageScore ∧
      (calculateMatchScore u p db).stageScore ≤ 100) ∧
    (0 ≤ (calculateMatchScore u p db).interestScore ∧
      (calculateMatchScore u p db).interestScore ≤ 100) ∧
    (0 ≤ (calculateMatchScore u p db).engagementScore ∧
      (calculateMatchScore u p db).engagementScore ≤ 100) ∧
    (0 ≤ (calculateMatchScore u p db).totalScore ∧
      (calculateMatchScore u p db).totalScore ≤ 100) := by
  refine ⟨?_, ?_, ?_, ?_, ?_, ?_⟩
  · rw [matchScore_skillScore_eq]
    exact jsRound_of_bounds _ (calculateSkillScore_nonneg u p db)
      (calculateSkillScore_le_100 u p db)
  · rw [matchScore_investmentScore_eq]
    exact jsRound_of_bounds _ (calculateInvestmentScore_nonneg u p)
      (calculateInvestmentScore_le_100 u p)
  · rw [matchScore_stageScore_eq]
    exact jsRound_of_bounds _ (le_trans (by norm_num) (calculateStageScore_ge_55 u p))
      (calculateStageScore_le_100 u p)
  · rw [matchScore_interestScore_eq]
    exact jsRound_of_bounds _ (calculateInterestScore_nonneg u p)
      (calculateInterestScore_le_100 u p)
  · rw [matchScore_engagementScore_eq]
    exact jsRound_of_bounds _ (calculateEngagementScore_nonneg u)
      (calculateEngagementScore_le_100 u)
  · rw [matchScore_totalScore_eq]
    exact jsRound_of_bounds _ (rawTotalScore_nonneg u p db) (rawTotalScore_le_100 u p db)

/-- C3 counterexample: in Scenario 1 (skill advanced/5y against requirement
intermediate/2y) the skill sub-score is 81.5, not the claimed clamped 100. -/
theorem scenario1_skill_not_clamped_cex :
    (calculateSkillScore scenarioUser scenarioProject scenarioDB).score = 163 / 2 ∧
    ((163 : ℚ) / 2) ≠ 100 := by
  constructor
  · norm_num [calculateSkillScore, scoreRequirements, requirementScore, proficiencyComponent,
      experienceComponent, Proficiency.level, List.filter, List.find?, Obj.set,
      scenarioUser, scenarioProject, scenarioDB]
  · norm_num

/-- C3 (amended): in Scenario 1 the proficiency component is 40 (at least 30),
the experience component is 31.5 (at least 30), coverage is 100% so the +10
bonus applies, and the resulting skill sub-score is the per-requirement score
71.5 plus the bonus, i.e. 81.5 - which stays below the clamp of 100. -/
theorem scenario1_skill_components :
    30 ≤ proficiencyComponent Proficiency.advanced.level Proficiency.intermediate.level ∧
    30 ≤ experienceComponent 5 2 ∧
    Obj.get (calculateSkillScore scenarioUser scenarioProject scenarioDB).details "coverage"
      = some 100 ∧
    (calculateSkillScore scenarioUser scenarioProject scenarioDB).score
      = requirementScore ⟨1, 7, Proficiency.advanced, 5⟩ ⟨1, 7, Proficiency.intermediate, 2, 0, 1⟩
        + 10 ∧
    (calculateSkillScore scenarioUser scenarioProject scenarioDB).score = 163 / 2 := by
  refine ⟨?_, ?_, ?_, ?_, ?_⟩
  · norm_num [proficiencyComponent, Proficiency.level]
  · norm_num [experienceComponent]
  · norm_num [calculateSkillScore, scoreRequirements, requirementScore, proficiencyComponent,
      experienceComponent, Proficiency.level, List.filter, List.find?, Obj.set, Obj.get,
      scenarioUser, scenarioProject, scenarioDB, skillKey_seven]
    try simp
  · norm_num [calculateSkillScore, scoreRequirements, requirementScore, proficiencyComponent,
      experienceComponent, Proficiency.level, List.filter, List.find?, Obj.set,
      scenarioUser, scenarioProject, scenarioDB]
  · norm_num [calculateSkillScore, scoreRequirements, requirementScore, proficiencyComponent,
      experienceComponent, Proficiency.level, List.filter, List.find?, Obj.set,
      scenarioUser, scenarioProject, scenarioDB]

/-- C4 counterexample: a user with no recorded skills scored against a project
with zero team requirements gets skill sub-score 0 with an empty detail map,
not the claimed 50 with a noRequirements flag: the no-skills check runs first. -/
theorem skill_noRequirements_cex :
    (calculateSkillScore noSkillUser noReqProject noSkillDB).score = 0 ∧
    Obj.get (calculateSkillScore noSkillUser noReqProject noSkillDB).details "noRequirements"
      = none ∧
    ((0 : ℚ) ≠ 50) := by
  refine ⟨?_, ?_, by norm_num⟩
  · norm_num [calculateSkillScore, List.filter, noSkillUser, noReqProject, noSkillDB]
  · norm_num [calculateSkillScore, List.filter, Obj.get, noSkillUser, noReqProject, noSkillDB]

/-- C4 (amended): for every user that has at least one recorded skill, scoring
a project with zero team requirements yields skill sub-score exactly 50 and the
detail map flags the absence of requirements. -/
theorem skill_noRequirements_score (u : User) (p : Project) (db : DB)
    (hskills : db.userSkills.filter (fun s => s.userId == u.id) ≠ [])
    (hreqs : db.projectTeamRequirements.filter (fun r => r.projectId == p.id) = []) :
    (calculateSkillScore u p db).score = 50 ∧
    Obj.get (calculateSkillScore u p db).details "noRequirements" = some 50 := by
  have hlen : ¬ (db.userSkills.filter (fun s => s.userId == u.id)).length = 0 := by
    simpa [List.length_eq_zero] using hskills
  have hres : calculateSkillScore u p db = ⟨50, [("noRequirements", 50)]⟩ := by
    simp only [calculateSkillScore, hreqs]
    rw [if_neg hlen]
    simp
  rw [hres]
  exact ⟨rfl, by simp [Obj.get]⟩

/-- C4 witness: a user holding one skill against a project with no team
requirements indeed receives the neutral 50 and the noRequirements flag. -/
theorem skill_noRequirements_score_witness :
    (calculateSkillScore scenarioUser scenarioProject witnessDB4).score = 50 ∧
    Obj.get (calculateSkillScore scenarioUser scenarioProject witnessDB4).details
      "noRequirements" = some 50 :=
  skill_noRequirements_score scenarioUser scenarioProject witnessDB4
    (by simp [witnessDB4, scenarioUser, List.filter])
    (by simp [witnessDB4, scenarioProject, List.filter])

/-- C6: the claim is right and the code is wrong.  Every calculator writes a
final key into its detail object; the object spread in calculateMatchScore
keeps only the last one.  On cexUser1/cexProject1 the skill calculator emits
the pair (final, 50.5), but the merged detail map carries final = 72 (the
value from the engagement calculator), so an emitted pair is silently lost. -/
theorem scoreDetails_final_key_overwritten :
    Obj.get (calculateSkillScore cexUser1 cexProject1 cexDB1).details "final"
      = some (101 / 2) ∧
    Obj.get (calculateMatchScore cexUser1 cexProject1 cexDB1).scoreDetails "final"
      = some 72 ∧
    ((101 : ℚ) / 2 ≠ 72) := by
  refine ⟨?_, ?_, by norm_num⟩
  · norm_num [calculateSkillScore, scoreRequirements, requirementScore, proficiencyComponent,
      experienceComponent, Proficiency.level, List.filter, List.find?, Obj.set, Obj.get,
      cexUser1, cexProject1, cexDB1, skillKey_one]
    try simp
  · norm_num [calculateMatchScore, rawTotalScore, calculateSkillScore, scoreRequirements,
      requirementScore, proficiencyComponent, experienceComponent, Proficiency.level,
      calculateStageScore, Stage.level, calculateEngagementScore, calculateInterestScore,
      calculateInvestmentScore, List.filter, List.find?, Obj.set, Obj.get, Obj.merge, jsRound,
      cexUser1, cexProject1, cexDB1, ceil_half_of_two, founder_ne_investor, skillKey_one]
    try simp

/-- C10: for every user and project the stage sub-score lies in [55, 100]: the
base 50 is always raised by a stage-match bonus of at least 5 plus a
non-negative collaboration bonus, and the clamp at 100 never drops below 55. -/
theorem stageScore_between_55_and_100 (u : User) (p : Project) :
    55 ≤ (calculateStageScore u p).score ∧ (calculateStageScore u p).score ≤ 100 :=
  ⟨calculateStageScore_ge_55 u p, calculateStageScore_le_100 u p⟩

/-! ## Concrete inputs for the recommendation and finder claims -/

def cexUser5 : User := ⟨1, .freelancer, 2, 0, 10, 0, 0, ["x", "y"]⟩

def cexProject5 : Project := ⟨1, 2, .idea, .active, false, true, false, none, ["x"]⟩

def cexDB5 : DB :=
  ⟨[cexUser5], [cexProject5], [⟨1, 1, .intermediate, 7⟩], [⟨1, 1, .intermediate, 0, 0, 1⟩]⟩

def wUser5 : User := ⟨1, .investor, 2, 0, 10, 10, 100, ["stage_idea"]⟩

def wProject5 : Project := ⟨1, 2, .idea, .active, true, true, true, some 10, ["stage_idea"]⟩

def wDB5 : DB := ⟨[wUser5], [wProject5], [⟨1, 1, .expert, 20⟩], [⟨1, 1, .beginner, 0, 0, 1⟩]⟩

def emptyDB : DB := ⟨[], [], [], []⟩

lemma stageKey_idea : String.append "stage_" "idea" = "stage_idea" := rfl

lemma rawTotal_cex5 : rawTotalScore cexUser5 cexProject5 cexDB5 = 119 / 2 := by
  norm_num [rawTotalScore, calculateSkillScore, scoreRequirements, requirementScore,
    proficiencyComponent, experienceComponent, Proficiency.level, calculateStageScore,
    Stage.level, calculateEngagementScore, calculateInterestScore, calculateInvestmentScore,
    List.filter, List.find?, List.contains, Obj.set, cexUser5, cexProject5, cexDB5,
    ceil_half_of_two, freelancer_ne_investor, skillKey_one]

/-- C5 counterexample: on cexUser5/cexProject5 the unrounded weighted total is
59.5, so the reported (rounded) total is 60, yet the recommendation is the
Fair-match message, not the Good-match message the claim requires for a total
of 60. -/
theorem recommendation_uses_unrounded_total_cex :
    (calculateMatchScore cexUser5 cexProject5 cexDB5).totalScore = 60 ∧
    (calculateMatchScore cexUser5 cexProject5 cexDB5).recommendation
      = "Fair match - could be worth exploring" ∧
    "Fair match - could be worth exploring" ≠ "Good match - consider this opportunity" := by
  refine ⟨?_, ?_, by simp⟩
  · rw [matchScore_totalScore_eq, rawTotal_cex5]
    norm_num [jsRound]
  · rw [matchScore_recommendation_eq, rawTotal_cex5]
    norm_num [recommendationFor]

/-- C5 (amended): the recommendation text is determined by the unrounded
weighted total (not by the reported rounded total): at least 80 gives the
Excellent message, [60, 80) the Good message, [40, 60) the Fair message, and
below 40 the Limited message. -/
theorem recommendation_tiers_from_raw_total (u : User) (p : Project) (db : DB) :
    (80 ≤ rawTotalScore u p db →
      (calculateMatchScore u p db).recommendation
        = "Excellent match - highly recommended") ∧
    (60 ≤ rawTotalScore u p db ∧ rawTotalScore u p db < 80 →
      (calculateMatchScore u p db).recommendation
        = "Good match - consider this opportunity") ∧
    (40 ≤ rawTotalScore u p db ∧ rawTotalScore u p db < 60 →
      (calculateMatchScore u p db).recommendation
        = "Fair match - could be worth exploring") ∧
    (rawTotalScore u p db < 40 →
      (calculateMatchScore u p db).recommendation
        = "Limited match - may require additional consideration") := by
  refine ⟨?_, ?_, ?_, ?_⟩
  · intro h
    rw [matchScore_recommendation_eq]
    unfold recommendationFor
    rw [if_pos h]
  · rintro ⟨h1, h2⟩
    rw [matchScore_recommendation_eq]
    unfold recommendationFor
    rw [if_neg (by linarith), if_pos h1]
  · rintro ⟨h1, h2⟩
    rw [matchScore_recommendation_eq]
    unfold recommendationFor
    rw [if_neg (by linarith), if_neg (by linarith), if_pos h1]
  · intro h
    rw [matchScore_recommendation_eq]
    unfold recommendationFor
    rw [if_neg (by linarith), if_neg (by linarith), if_neg (by linarith)]

/-- C5 witness: a maxed-out investor profile reaches an unrounded total of
98.85, and the aggregator indeed emits the Excellent-match message. -/
theorem recommendation_tiers_from_raw_total_witness :
    (calculateMatchScore wUser5 wProject5 wDB5).recommendation
      = "Excellent match - highly recommended" :=
  (recommendation_tiers_from_raw_total wUser5 wProject5 wDB5).1 (by
    norm_num [rawTotalScore, calculateSkillScore, scoreRequirements, requirementScore,
      proficiencyComponent, experienceComponent, Proficiency.level, calculateStageScore,
      Stage.level, Stage.name, calculateEngagementScore, calculateInterestScore,
      calculateInvestmentScore, List.filter, List.find?, List.contains, Obj.set,
      wUser5, wProject5, wDB5, ceil_half_of_two, stageKey_idea, skillKey_one])

/-- C7: every findTopMatches result is sorted by total score descending, has at
most limit entries, and is stable: for each score s the result entries scoring
s form a prefix of the discovery-order list of candidates scoring s. -/
theorem findTopMatches_ranked (db : DB) (userId : ℕ) (limit : ℕ) (minScore : ℤ) :
    (findTopMatches db userId limit minScore).Pairwise
      (fun a b => b.totalScore ≤ a.totalScore) ∧
    (findTopMatches db userId limit minScore).length ≤ limit ∧
    ∀ user, db.users.find? (fun v => v.id == userId) = some user →
      ∀ s : ℤ, ∃ t,
        (scoreLoop user db userId minScore (activeProjects db)).filter
            (fun m => m.totalScore == s)
          = (findTopMatches db userId limit minScore).filter (fun m => m.totalScore == s)
            ++ t := by
  unfold findTopMatches
  cases hfind : db.users.find? (fun v => v.id == userId) with
  | none =>
    refine ⟨List.Pairwise.nil, by simp, ?_⟩
    intro user huser
    cases huser
  | some user0 =>
    refine ⟨?_, ?_, ?_⟩
    · exact List.Pairwise.sublist (List.take_sublist _ _) (sortByScoreDesc_sorted _)
    · show (List.take limit _).length ≤ limit
      rw [List.length_take]
      exact min_le_left _ _
    · intro user huser s
      injection huser with he
      subst he
      refine ⟨(List.drop limit (sortByScoreDesc
        (scoreLoop user0 db userId minScore (activeProjects db)))).filter
          (fun m => m.totalScore == s), ?_⟩
      show _ = (List.take limit (sortByScoreDesc
          (scoreLoop user0 db userId minScore (activeProjects db)))).filter
            (fun m => m.totalScore == s) ++ _
      rw [← List.filter_append, List.take_append_drop, filter_sortByScoreDesc]

/-- C7 witness: applied to the concrete database cexDB5 at score 60, the
score-60 entries of the result are a prefix of the discovery-order candidates. -/
theorem findTopMatches_ranked_witness :
    ∃ t, (scoreLoop cexUser5 cexDB5 1 40 (activeProjects cexDB5)).filter
        (fun m => m.totalScore == 60)
      = (findTopMatches cexDB5 1 10 40).filter (fun m => m.totalScore == 60) ++ t :=
  (findTopMatches_ranked cexDB5 1 10 40).2.2 cexUser5 rfl 60

/-- C8: findTopMatches returns an empty list rather than failing when the user
is unknown or when no candidate projects are available - that is, when the
candidate set of projects that are active and seeking a team is empty, whether
the project table is empty or holds only non-qualifying projects. -/
theorem findTopMatches_missing_data (db : DB) (userId : ℕ) (limit : ℕ) (minScore : ℤ) :
    ((∀ v ∈ db.users, v.id ≠ userId) → findTopMatches db userId limit minScore = []) ∧
    (db.projects.filter (fun p => p.status == ProjectStatus.active && p.seekingTeam) = [] →
      findTopMatches db userId limit minScore = []) := by
  constructor
  · intro h
    have hfind : db.users.find? (fun v => v.id == userId) = none := by
      rw [List.find?_eq_none]
      intro x hx
      simpa using h x hx
    unfold findTopMatches
    rw [hfind]
  · intro h
    have hap : activeProjects db = [] := by
      unfold activeProjects
      rw [h]
      rfl
    unfold findTopMatches
    cases hfind : db.users.find? (fun v => v.id == userId) with
    | none => rfl
    | some user0 => simp [hap, scoreLoop, sortByScoreDesc]

def draftOnlyDB : DB := ⟨[cexUser5], [⟨9, 7, .idea, .draft, false, false, false, none, []⟩], [], []⟩

/-- C8 witness: on an empty database the finder returns the empty list, and so
it does on a database whose only project is a draft that is not seeking a team
(a non-empty table with an empty candidate set). -/
theorem findTopMatches_missing_data_witness :
    findTopMatches emptyDB 1 10 40 = [] ∧ findTopMatches draftOnlyDB 1 10 40 = [] :=
  ⟨(findTopMatches_missing_data emptyDB 1 10 40).1
      (by
        intro v hv
        exact absurd hv (List.not_mem_nil v)),
    (findTopMatches_missing_data draftOnlyDB 1 10 40).2 (by rfl)⟩

/-- C9: the candidate fetch is capped at 100 rows, so a findTopMatches result
never exceeds 100 entries and every surfaced match comes from one of the first
100 active seeking-team projects. -/
theorem findTopMatches_fetch_cap (db : DB) (userId : ℕ) (limit : ℕ) (minScore : ℤ) :
    (findTopMatches db userId limit minScore).length ≤ 100 ∧
    ∀ m ∈ findTopMatches db userId limit minScore,
      ∃ p ∈ activeProjects db, m.projectId = p.id := by
  unfold findTopMatches
  cases hfind : db.users.find? (fun v => v.id == userId) with
  | none =>
    refine ⟨by simp, ?_⟩
    intro m hm
    exact absurd hm (List.not_mem_nil m)
  | some user0 =>
    constructor
    · calc (List.take limit (sortByScoreDesc
            (scoreLoop user0 db userId minScore (activeProjects db)))).length
          ≤ (sortByScoreDesc (scoreLoop user0 db userId minScore (activeProjects db))).length := by
            rw [List.length_take]
            exact min_le_right _ _
        _ = (scoreLoop user0 db userId minScore (activeProjects db)).length :=
            length_sortByScoreDesc _
        _ ≤ (activeProjects db).length := scoreLoop_length_le _ _ _ _ _
        _ ≤ 100 := activeProjects_length_le db
    · intro m hm
      have hm2 : m ∈ sortByScoreDesc (scoreLoop user0 db userId minScore (activeProjects db)) :=
        List.take_subset _ _ hm
      have hm3 : m ∈ scoreLoop user0 db userId minScore (activeProjects db) :=
        mem_sortByScoreDesc.mp hm2
      rcases mem_scoreLoop hm3 with ⟨p, hp, hpo, rfl⟩
      exact ⟨p, hp, matchScore_projectId_eq user0 p db⟩

/-- C9 witness: on cexDB5 the single surfaced match indeed originates from the
fetched candidate list. -/
theorem findTopMatches_fetch_cap_witness :
    ∃ p ∈ activeProjects cexDB5,
      (calculateMatchScore cexUser5 cexProject5 cexDB5).projectId = p.id := by
  have htot : (calculateMatchScore cexUser5 cexProject5 cexDB5).totalScore = 60 := by
    rw [matchScore_totalScore_eq, rawTotal_cex5]
    norm_num [jsRound]
  have hactive : activeProjects cexDB5 = [cexProject5] := rfl
  have hown : (cexProject5.ownerId == 1) = false := rfl
  have hfind5 : cexDB5.users.find? (fun v => v.id == 1) = some cexUser5 := rfl
  have hres : findTopMatches cexDB5 1 10 40
      = [calculateMatchScore cexUser5 cexProject5 cexDB5] := by
    unfold findTopMatches
    rw [hfind5]
    rw [hactive]
    simp [scoreLoop, hown, htot, sortByScoreDesc, insertDesc]
  exact (findTopMatches_fetch_cap cexDB5 1 10 40).2 _ (by
    rw [hres]
    exact List.mem_singleton.mpr rfl)

end Synapse
